import Mathlib

/-!
A shallow embedding of `source/MicroBitCompass.cpp` (the micro:bit DAL
compass driver) and proofs about its calibration state machine, heading
computation and register protocol.

Modelling conventions:
* The `status` bit field is represented by its two flag bits
  (`MICROBIT_COMPASS_STATUS_CALIBRATED`, `MICROBIT_COMPASS_STATUS_CALIBRATING`)
  as two `Bool` fields; all source operations on `status` are pure
  set/clear/test of these two bits.
* 16-bit signed sensor values are `Int` with explicit two's-complement
  reassembly (`toInt16`) where the code reads bytes.
* The magnetometer's register file (the external device state touched by
  `writeCommand`/`read16`) is a byte-valued map `Reg → Nat`.
* Mutating operations return the new state together with the list of
  notifications fired (`MicroBitEvent`) and the ordered list of register
  writes issued (`writeCommand` calls), so that event and write order are
  part of the observable behaviour.
* Floating point trigonometry in `heading()` is idealized over the reals:
  the C library `atan2` is modelled by its standard real-valued case
  definition, and the C `(int)` cast by truncation toward zero.
-/

/-- A 3-axis magnetometer reading, as in the source's sample struct:
three signed 16-bit components held in machine integers. -/
structure Sample where
  x : Int
  y : Int
  z : Int
deriving DecidableEq, Repr

/-- The MAG3110 registers the driver touches, by their datasheet names
(the numeric addresses live in the register map header, which only
fixes which register each symbol denotes). -/
inductive Reg where
  | CTRL_REG1
  | CTRL_REG2
  | OFF_X_MSB
  | OFF_X_LSB
  | OFF_Y_MSB
  | OFF_Y_LSB
  | OFF_Z_MSB
  | OFF_Z_LSB
  | WHOAMI
deriving DecidableEq, Repr

/-- The notifications the driver can fire via `MicroBitEvent`:
`MICROBIT_COMPASS_EVT_CAL_REQUIRED`, `..._CAL_START`, `..._CAL_END`. -/
inductive Event where
  | CAL_REQUIRED
  | CAL_START
  | CAL_END
deriving DecidableEq, Repr

/-- The state of a `MicroBitCompass` object together with the device's
persistent register file. `calibratedFlag` and `calibratingFlag` are the
two bits of the `status` field; `average` is the calibration offset,
`sample` the latest reading, `minSample`/`maxSample` the running extents,
`eventStartTime` the asynchronous-calibration deadline start (0 = none). -/
structure CompassState where
  calibratedFlag : Bool
  calibratingFlag : Bool
  average : Sample
  sample : Sample
  minSample : Sample
  maxSample : Sample
  eventStartTime : Nat
  regs : Reg → Nat

/-- A register write as issued by `writeCommand(reg, value)`: the register
byte-valued map is updated at `reg`. -/
def writeReg (f : Reg → Nat) (r : Reg) (v : Nat) : Reg → Nat :=
  fun q => if q = r then v % 256 else f q

/-- Apply a sequence of `writeCommand` register writes in order. -/
def writeAll (f : Reg → Nat) (ws : List (Reg × Nat)) : Reg → Nat :=
  ws.foldl (fun g p => writeReg g p.1 p.2) f

/-- Reassemble two bytes into a signed 16-bit value, as `read16` does:
`(int16_t)(lsb | (msb << 8))`. -/
def toInt16 (n : Nat) : Int :=
  let m := n % 65536
  if m < 32768 then (m : Int) else (m : Int) - 65536

/-- `read16` on a 16-bit register pair: reads the MSB byte register and the
following LSB byte register and reassembles them as a signed 16-bit value. -/
def read16 (f : Reg → Nat) (msb lsb : Reg) : Int :=
  toInt16 ((f msb % 256) * 256 + f lsb % 256)

/-- The low byte of a stored offset component, as `(uint8_t)v`. -/
def toByte (v : Int) : Nat :=
  (Int.emod v 256).toNat

/-- The high byte of a stored offset component, as `(uint8_t)(v >> 8)`
(arithmetic shift right on the signed value, then byte truncation). -/
def highByte (v : Int) : Nat :=
  toByte (Int.fdiv v 256)

/-- The constructor `MicroBitCompass::MicroBitCompass`: presume calibrated
(`status = 0x01`), zero the deadline, issue the two control-register
writes, read the persisted offsets back into `average`, and clear the
`CALIBRATED` bit when all three read back zero. Member samples are
value-initialized to zero. Returns the object state and the register
writes issued. -/
def construct (devRegs : Reg → Nat) : CompassState × List (Reg × Nat) :=
  let f1 := writeReg devRegs Reg.CTRL_REG2 0xA0
  let f2 := writeReg f1 Reg.CTRL_REG1 0x61
  let ax := read16 f2 Reg.OFF_X_MSB Reg.OFF_X_LSB
  let ay := read16 f2 Reg.OFF_Y_MSB Reg.OFF_Y_LSB
  let az := read16 f2 Reg.OFF_Z_MSB Reg.OFF_Z_LSB
  let calibrated : Bool := if ax = 0 ∧ ay = 0 ∧ az = 0 then false else true
  ({ calibratedFlag := calibrated
     calibratingFlag := false
     average := ⟨ax, ay, az⟩
     sample := ⟨0, 0, 0⟩
     minSample := ⟨0, 0, 0⟩
     maxSample := ⟨0, 0, 0⟩
     eventStartTime := 0
     regs := f2 },
   [(Reg.CTRL_REG2, 0xA0), (Reg.CTRL_REG1, 0x61)])

/-- `MicroBitCompass::isCalibrated`: a pure test of the `CALIBRATED` bit. -/
def isCalibrated (s : CompassState) : Bool :=
  s.calibratedFlag

/-- `MicroBitCompass::isCalibrating`: a pure test of the `CALIBRATING` bit. -/
def isCalibrating (s : CompassState) : Bool :=
  s.calibratingFlag

/-- `MicroBitCompass::calibrateStart`: early-return if already calibrating;
otherwise set the `CALIBRATING` bit, snapshot `minSample = maxSample =
sample`, and fire `CAL_START`. -/
def calibrateStart (s : CompassState) : CompassState × List Event × List (Reg × Nat) :=
  if isCalibrating s then (s, [], [])
  else
    ({ s with
        calibratingFlag := true
        minSample := s.sample
        maxSample := s.sample },
     [Event.CAL_START], [])

/-- `MicroBitCompass::calibrateAsync`: record the current tick as
`eventStartTime`, then run `calibrateStart`. -/
def calibrateAsync (ticks : Nat) (s : CompassState) :
    CompassState × List Event × List (Reg × Nat) :=
  calibrateStart { s with eventStartTime := ticks }

/-- `MicroBitCompass::calibrateEnd`: set `average` to the per-axis midpoint
`(maxSample + minSample) / 2` (C integer division truncates toward zero,
`Int.div`), clear `CALIBRATING`, set `CALIBRATED`, write the six offset
bytes to the device (LSB then MSB per axis, X then Y then Z), and fire
`CAL_END`. -/
def calibrateEnd (s : CompassState) : CompassState × List Event × List (Reg × Nat) :=
  let ax := Int.tdiv (s.maxSample.x + s.minSample.x) 2
  let ay := Int.tdiv (s.maxSample.y + s.minSample.y) 2
  let az := Int.tdiv (s.maxSample.z + s.minSample.z) 2
  let ws : List (Reg × Nat) :=
    [(Reg.OFF_X_LSB, toByte ax), (Reg.OFF_X_MSB, highByte ax),
     (Reg.OFF_Y_LSB, toByte ay), (Reg.OFF_Y_MSB, highByte ay),
     (Reg.OFF_Z_LSB, toByte az), (Reg.OFF_Z_MSB, highByte az)]
  ({ s with
      average := ⟨ax, ay, az⟩
      calibratingFlag := false
      calibratedFlag := true
      regs := writeAll s.regs ws },
   [Event.CAL_END], ws)

/-- `MicroBitCompass::clearCalibration`: write zero to all six offset
registers and clear the `CALIBRATED` bit. Fires no event. -/
def clearCalibration (s : CompassState) : CompassState × List Event × List (Reg × Nat) :=
  let ws : List (Reg × Nat) :=
    [(Reg.OFF_X_LSB, 0), (Reg.OFF_X_MSB, 0),
     (Reg.OFF_Y_LSB, 0), (Reg.OFF_Y_MSB, 0),
     (Reg.OFF_Z_LSB, 0), (Reg.OFF_Z_MSB, 0)]
  ({ s with
      calibratedFlag := false
      regs := writeAll s.regs ws },
   [], ws)

/-- `MicroBitCompass::idleTick`: when the data-ready line `int1` is high,
read a fresh sample; while calibrating, fold it into the min/max extents
and, when a deadline is set (`eventStartTime` non-zero) and the current
tick is strictly past `eventStartTime + period`
(`MICROBIT_COMPASS_CALIBRATE_PERIOD`, a header constant taken here as a
parameter), zero the deadline and run `calibrateEnd`. -/
def idleTick (period : Nat) (int1 : Bool) (ticks : Nat) (newSample : Sample)
    (s : CompassState) : CompassState × List Event × List (Reg × Nat) :=
  if int1 then
    let s1 := { s with sample := newSample }
    if s1.calibratingFlag then
      let s2 := { s1 with
        minSample := ⟨min newSample.x s1.minSample.x,
                      min newSample.y s1.minSample.y,
                      min newSample.z s1.minSample.z⟩
        maxSample := ⟨max newSample.x s1.maxSample.x,
                      max newSample.y s1.maxSample.y,
                      max newSample.z s1.maxSample.z⟩ }
      if s2.eventStartTime ≠ 0 ∧ ticks > s2.eventStartTime + period then
        calibrateEnd { s2 with eventStartTime := 0 }
      else (s2, [], [])
    else (s1, [], [])
  else (s, [], [])

/-- The value `heading()` produces: one of the two sentinel return codes
(`MICROBIT_COMPASS_IS_CALIBRATING`, `MICROBIT_COMPASS_CALIBRATE_REQUIRED`,
distinct non-degree constants from the header) or a degree count. -/
inductive HeadingResult where
  | IS_CALIBRATING
  | CALIBRATE_REQUIRED
  | degrees (d : Int)
deriving DecidableEq, Repr

/-- The C library `atan2(y, x)`, idealized over the reals by its standard
case definition: the angle of the point `(x, y)` in `(-π, π]`. -/
noncomputable def atan2 (y x : ℝ) : ℝ :=
  if 0 < x then Real.arctan (y / x)
  else if x < 0 then
    (if 0 ≤ y then Real.arctan (y / x) + Real.pi
     else Real.arctan (y / x) - Real.pi)
  else
    (if 0 < y then Real.pi / 2
     else if y < 0 then -(Real.pi / 2)
     else 0)

/-- The C `(int)` cast on a real value: truncation toward zero. -/
noncomputable def truncToInt (r : ℝ) : Int :=
  if 0 ≤ r then ⌊r⌋ else ⌈r⌉

/-- The bearing computed by `heading()` before normalization:
`atan2(sample.y - average.y, sample.x - average.x) * 180 / PI`. -/
noncomputable def bearingOf (s : CompassState) : ℝ :=
  atan2 ((s.sample.y - s.average.y : Int) : ℝ)
        ((s.sample.x - s.average.x : Int) : ℝ) * 180 / Real.pi

/-- `MicroBitCompass::heading`: if calibrating, the calibrating sentinel;
else if not calibrated, fire `CAL_REQUIRED` and return the
calibration-required sentinel; else the degree value
`(int)(360 - bearing)` with a negative bearing first normalized by
adding 360. -/
noncomputable def heading (s : CompassState) : HeadingResult × List Event :=
  if s.calibratingFlag = true then (HeadingResult.IS_CALIBRATING, [])
  else if s.calibratedFlag = false then
    (HeadingResult.CALIBRATE_REQUIRED, [Event.CAL_REQUIRED])
  else
    let bearing := bearingOf s
    let bearing := if bearing < 0 then bearing + 360 else bearing
    (HeadingResult.degrees (truncToInt (360 - bearing)), [])

/-- The bearing of `heading()` after the normalization step: a negative
bearing has 360 added. -/
noncomputable def normBearing (s : CompassState) : ℝ :=
  if bearingOf s < 0 then bearingOf s + 360 else bearingOf s

/-- At most one of the two status bits is set. -/
def atMostOneFlag (s : CompassState) : Prop :=
  ¬ (s.calibratedFlag = true ∧ s.calibratingFlag = true)

instance (s : CompassState) : Decidable (atMostOneFlag s) := by
  unfold atMostOneFlag; infer_instance

/-- The all-zero sample. -/
def zeroSample : Sample :=
  ⟨0, 0, 0⟩

/-- A baseline concrete state: uncalibrated, not calibrating, all values
and registers zero. -/
def baseState : CompassState where
  calibratedFlag := false
  calibratingFlag := false
  average := zeroSample
  sample := zeroSample
  minSample := zeroSample
  maxSample := zeroSample
  eventStartTime := 0
  regs := fun _ => 0

/-- A concrete calibrated, non-calibrating state. -/
def calState : CompassState :=
  { baseState with calibratedFlag := true }

/-- A concrete state in which a calibration session is active. -/
def calibratingState : CompassState :=
  { baseState with calibratingFlag := true }

/-- A concrete calibrated state whose latest sample is `(x, y, 0)` and
whose calibration offset is zero, for the heading computations. -/
def headingState (x y : Int) : CompassState :=
  { baseState with calibratedFlag := true, sample := ⟨x, y, 0⟩ }

/-- `calibrateEnd` always leaves exactly the `CALIBRATED` bit set. -/
theorem calibrateEnd_atMostOne (s : CompassState) : atMostOneFlag (calibrateEnd s).1 := by
  simp [calibrateEnd, atMostOneFlag]

/-- `idleTick` preserves the at-most-one-flag invariant. -/
theorem idleTick_atMostOne (p : Nat) (i : Bool) (t : Nat) (ns : Sample)
    (s : CompassState) (h : atMostOneFlag s) : atMostOneFlag (idleTick p i t ns s).1 := by
  unfold idleTick
  dsimp only
  split
  · split
    · split
      · exact calibrateEnd_atMostOne _
      · exact h
    · exact h
  · exact h

/-- C1. The claimed invariant fails: `calibrateStart` from the concrete
calibrated, non-calibrating state (where at most one flag is set) yields a
state with both `CALIBRATED` and `CALIBRATING` set. -/
theorem c1_counterexample :
    atMostOneFlag calState ∧
    (calibrateStart calState).1.calibratedFlag = true ∧
    (calibrateStart calState).1.calibratingFlag = true := by
  refine ⟨?_, rfl, rfl⟩
  simp [atMostOneFlag, calState, baseState]

/-- C1 (amended). Construction, `calibrateEnd`, `clearCalibration` and
`idleTick` preserve (construction and `calibrateEnd` even establish) the
invariant that at most one of `CALIBRATED` and `CALIBRATING` is set, and
`calibrateStart`/`calibrateAsync` preserve it from any state where
`CALIBRATED` is clear; but `calibrateStart` called with `CALIBRATED` set
and `CALIBRATING` clear leaves both flags set, since it does not clear
`CALIBRATED`. -/
theorem c1_flags_invariant :
    (∀ devRegs : Reg → Nat, atMostOneFlag (construct devRegs).1) ∧
    (∀ s : CompassState, atMostOneFlag (calibrateEnd s).1) ∧
    (∀ s : CompassState, atMostOneFlag s → atMostOneFlag (clearCalibration s).1) ∧
    (∀ (p : Nat) (i : Bool) (t : Nat) (ns : Sample) (s : CompassState),
      atMostOneFlag s → atMostOneFlag (idleTick p i t ns s).1) ∧
    (∀ s : CompassState, s.calibratedFlag = false → atMostOneFlag (calibrateStart s).1) ∧
    (∀ (ticks : Nat) (s : CompassState), s.calibratedFlag = false →
      atMostOneFlag (calibrateAsync ticks s).1) ∧
    (∀ s : CompassState, s.calibratedFlag = true → s.calibratingFlag = false →
      (calibrateStart s).1.calibratedFlag = true ∧
      (calibrateStart s).1.calibratingFlag = true) := by
  refine ⟨?_, calibrateEnd_atMostOne, ?_, idleTick_atMostOne, ?_, ?_, ?_⟩
  · intro devRegs
    simp [construct, atMostOneFlag]
  · intro s _
    simp [clearCalibration, atMostOneFlag]
  · intro s h
    unfold calibrateStart
    split
    · simp [atMostOneFlag, h]
    · simp [atMostOneFlag, h]
  · intro ticks s h
    unfold calibrateAsync calibrateStart
    split
    · simp [atMostOneFlag, h]
    · simp [atMostOneFlag, h]
  · intro s h1 h2
    simp [calibrateStart, isCalibrating, h1, h2]

/-- C1 witness: the hypothesis-bearing parts applied at concrete inputs. -/
theorem c1_witness :
    atMostOneFlag (clearCalibration calState).1 ∧
    atMostOneFlag (idleTick 10 true 3 zeroSample calState).1 ∧
    atMostOneFlag (calibrateStart baseState).1 ∧
    atMostOneFlag (calibrateAsync 7 baseState).1 ∧
    ((calibrateStart calState).1.calibratedFlag = true ∧
     (calibrateStart calState).1.calibratingFlag = true) :=
  ⟨c1_flags_invariant.2.2.1 calState (by decide),
   c1_flags_invariant.2.2.2.1 10 true 3 zeroSample calState (by decide),
   c1_flags_invariant.2.2.2.2.1 baseState rfl,
   c1_flags_invariant.2.2.2.2.2.1 7 baseState rfl,
   c1_flags_invariant.2.2.2.2.2.2 calState rfl rfl⟩

/-- C2. The claim fails at the window boundary: starting an asynchronous
calibration at tick 5 with window 10, a data-ready poll at tick exactly
15 = 5 + 10 leaves `CALIBRATING` set and the deadline in place, because
the code requires `ticks > eventStartTime + period` strictly. -/
theorem c2_counterexample :
    (idleTick 10 true 15 zeroSample (calibrateAsync 5 baseState).1).1.calibratingFlag = true ∧
    (idleTick 10 true 15 zeroSample (calibrateAsync 5 baseState).1).1.calibratedFlag = false ∧
    (idleTick 10 true 15 zeroSample (calibrateAsync 5 baseState).1).1.eventStartTime = 5 := by
  refine ⟨?_, ?_, ?_⟩ <;> rfl

/-- C2 (amended). If `calibrateAsync` is called at a non-zero tick `T`
(setting the deadline) with calibration window `W`, and `calibrateEnd` is
not called manually, then the first `idleTick` with the data-ready signal
asserted at a current tick strictly greater than `T + W` clears
`CALIBRATING`, sets `CALIBRATED` and resets the deadline to zero; any
such poll at a tick less than or equal to `T + W` (boundary included)
leaves the calibrating state and the deadline in place, and a poll
without data-ready changes nothing. -/
theorem c2_deadline (W T tick : Nat) (ns : Sample) (s0 : CompassState) (hT : 0 < T) :
    (T + W < tick →
      ((idleTick W true tick ns (calibrateAsync T s0).1).1.calibratingFlag = false ∧
       (idleTick W true tick ns (calibrateAsync T s0).1).1.calibratedFlag = true ∧
       (idleTick W true tick ns (calibrateAsync T s0).1).1.eventStartTime = 0)) ∧
    (tick ≤ T + W →
      ((idleTick W true tick ns (calibrateAsync T s0).1).1.calibratingFlag = true ∧
       (idleTick W true tick ns (calibrateAsync T s0).1).1.eventStartTime = T)) ∧
    idleTick W false tick ns (calibrateAsync T s0).1 =
      ((calibrateAsync T s0).1, [], []) := by
  have hstart : (calibrateAsync T s0).1.calibratingFlag = true ∧
      (calibrateAsync T s0).1.eventStartTime = T := by
    unfold calibrateAsync calibrateStart
    split <;> simp_all [isCalibrating]
  refine ⟨?_, ?_, ?_⟩
  · intro hlt
    unfold idleTick
    dsimp only
    rw [if_pos rfl, if_pos hstart.1]
    rw [if_pos ⟨by simpa [hstart.2] using hT.ne', by simpa [hstart.2] using hlt⟩]
    exact ⟨rfl, rfl, rfl⟩
  · intro hle
    unfold idleTick
    dsimp only
    rw [if_pos rfl, if_pos hstart.1]
    rw [if_neg (by simp [hstart.2]; intro _; exact hle)]
    exact ⟨hstart.1, hstart.2⟩
  · unfold idleTick
    dsimp only
    rw [if_neg (by simp)]

/-- C2 witness: window 10, start tick 5, polls at ticks 16 and 15. -/
theorem c2_witness :
    ((idleTick 10 true 16 zeroSample (calibrateAsync 5 baseState).1).1.calibratingFlag = false ∧
     (idleTick 10 true 16 zeroSample (calibrateAsync 5 baseState).1).1.calibratedFlag = true ∧
     (idleTick 10 true 16 zeroSample (calibrateAsync 5 baseState).1).1.eventStartTime = 0) ∧
    ((idleTick 10 true 15 zeroSample (calibrateAsync 5 baseState).1).1.calibratingFlag = true ∧
     (idleTick 10 true 15 zeroSample (calibrateAsync 5 baseState).1).1.eventStartTime = 5) :=
  ⟨(c2_deadline 10 5 16 zeroSample baseState (by decide)).1 (by decide),
   (c2_deadline 10 5 15 zeroSample baseState (by decide)).2.1 (by decide)⟩

/-- C3. For min/max extents `M ≤ X` componentwise, `calibrateEnd` sets the
calibration offset on each axis independently to `(M + X) / 2` with
integer division truncating toward zero, and issues the six offset
register writes low byte then high byte, in axis order X, Y, Z. -/
theorem c3_calibrateEnd_offset (s : CompassState)
    (_hx : s.minSample.x ≤ s.maxSample.x)
    (_hy : s.minSample.y ≤ s.maxSample.y)
    (_hz : s.minSample.z ≤ s.maxSample.z) :
    (calibrateEnd s).1.average.x = Int.tdiv (s.minSample.x + s.maxSample.x) 2 ∧
    (calibrateEnd s).1.average.y = Int.tdiv (s.minSample.y + s.maxSample.y) 2 ∧
    (calibrateEnd s).1.average.z = Int.tdiv (s.minSample.z + s.maxSample.z) 2 ∧
    (calibrateEnd s).2.2 =
      [(Reg.OFF_X_LSB, toByte (calibrateEnd s).1.average.x),
       (Reg.OFF_X_MSB, highByte (calibrateEnd s).1.average.x),
       (Reg.OFF_Y_LSB, toByte (calibrateEnd s).1.average.y),
       (Reg.OFF_Y_MSB, highByte (calibrateEnd s).1.average.y),
       (Reg.OFF_Z_LSB, toByte (calibrateEnd s).1.average.z),
       (Reg.OFF_Z_MSB, highByte (calibrateEnd s).1.average.z)] := by
  refine ⟨?_, ?_, ?_, rfl⟩ <;> simp [calibrateEnd, Int.add_comm]

/-- C3 witness: extents `M = (-3, 0, 5)`, `X = (4, 0, 6)` give offsets
`(0, 0, 5)`. -/
theorem c3_witness :
    (calibrateEnd { baseState with
        minSample := ⟨-3, 0, 5⟩, maxSample := ⟨4, 0, 6⟩ }).1.average.x =
      Int.tdiv (-3 + 4) 2 ∧
    (calibrateEnd { baseState with
        minSample := ⟨-3, 0, 5⟩, maxSample := ⟨4, 0, 6⟩ }).1.average.y =
      Int.tdiv (0 + 0) 2 ∧
    (calibrateEnd { baseState with
        minSample := ⟨-3, 0, 5⟩, maxSample := ⟨4, 0, 6⟩ }).1.average.z =
      Int.tdiv (5 + 6) 2 :=
  ⟨(c3_calibrateEnd_offset _ (by decide) (by decide) (by decide)).1,
   (c3_calibrateEnd_offset _ (by decide) (by decide) (by decide)).2.1,
   (c3_calibrateEnd_offset _ (by decide) (by decide) (by decide)).2.2.1⟩

/-- C6. Calling `calibrateStart` while `CALIBRATING` is already set is a
complete no-op: the state (including `minSample`/`maxSample` and both
status flags) is returned unchanged, and no event is fired. -/
theorem c6_calibrateStart_idempotent (s : CompassState)
    (h : s.calibratingFlag = true) :
    calibrateStart s = (s, [], []) := by
  unfold calibrateStart isCalibrating
  rw [if_pos h]

/-- C6 witness at the concrete calibrating state. -/
theorem c6_witness : calibrateStart calibratingState = (calibratingState, [], []) :=
  c6_calibrateStart_idempotent calibratingState rfl

/-- C7. From any state, `clearCalibration` zeroes all six persisted offset
registers and clears `CALIBRATED`, and `isCalibrating` afterwards equals
`isCalibrating` before, while `isCalibrated` afterwards is false. -/
theorem c7_clearCalibration_frame (s : CompassState) :
    (clearCalibration s).1.regs Reg.OFF_X_LSB = 0 ∧
    (clearCalibration s).1.regs Reg.OFF_X_MSB = 0 ∧
    (clearCalibration s).1.regs Reg.OFF_Y_LSB = 0 ∧
    (clearCalibration s).1.regs Reg.OFF_Y_MSB = 0 ∧
    (clearCalibration s).1.regs Reg.OFF_Z_LSB = 0 ∧
    (clearCalibration s).1.regs Reg.OFF_Z_MSB = 0 ∧
    isCalibrated (clearCalibration s).1 = false ∧
    isCalibrating (clearCalibration s).1 = isCalibrating s := by
  refine ⟨?_, ?_, ?_, ?_, ?_, ?_, rfl, rfl⟩ <;>
    simp [clearCalibration, writeAll, writeReg]

/-- C10. `calibrateEnd` has no precondition guard: called with
`CALIBRATING` clear, it still sets the offset from the current extents,
leaves `CALIBRATING` clear, sets `CALIBRATED`, issues the six offset
register writes, and fires the `CAL_END` notification. -/
theorem c10_calibrateEnd_unguarded (s : CompassState)
    (_h : s.calibratingFlag = false) :
    (calibrateEnd s).1.average =
      ⟨Int.tdiv (s.maxSample.x + s.minSample.x) 2,
       Int.tdiv (s.maxSample.y + s.minSample.y) 2,
       Int.tdiv (s.maxSample.z + s.minSample.z) 2⟩ ∧
    (calibrateEnd s).1.calibratingFlag = false ∧
    (calibrateEnd s).1.calibratedFlag = true ∧
    (calibrateEnd s).2.1 = [Event.CAL_END] ∧
    (calibrateEnd s).2.2 =
      [(Reg.OFF_X_LSB, toByte (Int.tdiv (s.maxSample.x + s.minSample.x) 2)),
       (Reg.OFF_X_MSB, highByte (Int.tdiv (s.maxSample.x + s.minSample.x) 2)),
       (Reg.OFF_Y_LSB, toByte (Int.tdiv (s.maxSample.y + s.minSample.y) 2)),
       (Reg.OFF_Y_MSB, highByte (Int.tdiv (s.maxSample.y + s.minSample.y) 2)),
       (Reg.OFF_Z_LSB, toByte (Int.tdiv (s.maxSample.z + s.minSample.z) 2)),
       (Reg.OFF_Z_MSB, highByte (Int.tdiv (s.maxSample.z + s.minSample.z) 2))] :=
  ⟨rfl, rfl, rfl, rfl, rfl⟩

/-- C10 witness: ending a never-started calibration session from the
baseline state still calibrates with offset zero. -/
theorem c10_witness :
    (calibrateEnd baseState).1.average = ⟨0, 0, 0⟩ ∧
    (calibrateEnd baseState).1.calibratedFlag = true ∧
    (calibrateEnd baseState).2.1 = [Event.CAL_END] :=
  ⟨(c10_calibrateEnd_unguarded baseState rfl).1,
   (c10_calibrateEnd_unguarded baseState rfl).2.2.1,
   (c10_calibrateEnd_unguarded baseState rfl).2.2.2.1⟩

/-- C5. Whenever `CALIBRATING` is set, `heading()` returns the calibrating
sentinel and fires nothing, regardless of `CALIBRATED`; only with
`CALIBRATING` clear and `CALIBRATED` also clear does it fire the
`CAL_REQUIRED` notification and return the calibration-required
sentinel — the calibrating check takes precedence. -/
theorem c5_heading_sentinel_priority (s : CompassState) :
    (s.calibratingFlag = true →
      heading s = (HeadingResult.IS_CALIBRATING, [])) ∧
    (s.calibratingFlag = false → s.calibratedFlag = false →
      heading s = (HeadingResult.CALIBRATE_REQUIRED, [Event.CAL_REQUIRED])) := by
  constructor
  · intro h
    unfold heading
    rw [if_pos h]
  · intro h1 h2
    unfold heading
    rw [if_neg (by simp [h1]), if_pos h2]

/-- C5 witness: a state with both flags set still yields the calibrating
sentinel, and the baseline uncalibrated state yields the
calibration-required sentinel with its notification. -/
theorem c5_witness :
    heading { calState with calibratingFlag := true } =
      (HeadingResult.IS_CALIBRATING, []) ∧
    heading baseState = (HeadingResult.CALIBRATE_REQUIRED, [Event.CAL_REQUIRED]) :=
  ⟨(c5_heading_sentinel_priority { calState with calibratingFlag := true }).1 rfl,
   (c5_heading_sentinel_priority baseState).2 rfl rfl⟩

/-- C8. At construction the initial state is `CALIBRATED` exactly when at
least one of the three persisted offsets read back from the device's
offset register pairs is non-zero; `CALIBRATING` starts clear and the
calibration deadline starts at zero. -/
theorem c8_construct_initial_state (devRegs : Reg → Nat) :
    (isCalibrated (construct devRegs).1 = true ↔
      (read16 devRegs Reg.OFF_X_MSB Reg.OFF_X_LSB ≠ 0 ∨
       read16 devRegs Reg.OFF_Y_MSB Reg.OFF_Y_LSB ≠ 0 ∨
       read16 devRegs Reg.OFF_Z_MSB Reg.OFF_Z_LSB ≠ 0)) ∧
    isCalibrating (construct devRegs).1 = false ∧
    (construct devRegs).1.eventStartTime = 0 := by
  have hr : ∀ msb lsb : Reg,
      msb ≠ Reg.CTRL_REG1 → msb ≠ Reg.CTRL_REG2 →
      lsb ≠ Reg.CTRL_REG1 → lsb ≠ Reg.CTRL_REG2 →
      read16 (writeReg (writeReg devRegs Reg.CTRL_REG2 0xA0) Reg.CTRL_REG1 0x61) msb lsb =
        read16 devRegs msb lsb := by
    intro msb lsb h1 h2 h3 h4
    unfold read16 writeReg
    rw [if_neg h1, if_neg h2, if_neg h3, if_neg h4]
  refine ⟨?_, rfl, rfl⟩
  unfold construct isCalibrated
  dsimp only
  rw [hr _ _ (by decide) (by decide) (by decide) (by decide),
      hr _ _ (by decide) (by decide) (by decide) (by decide),
      hr _ _ (by decide) (by decide) (by decide) (by decide)]
  clear hr
  by_cases hP : (read16 devRegs Reg.OFF_X_MSB Reg.OFF_X_LSB = 0 ∧
      read16 devRegs Reg.OFF_Y_MSB Reg.OFF_Y_LSB = 0 ∧
      read16 devRegs Reg.OFF_Z_MSB Reg.OFF_Z_LSB = 0)
  · rw [if_pos hP]
    refine ⟨fun h => (Bool.false_ne_true h).elim, fun h => ?_⟩
    rcases h with h | h | h
    · exact (h hP.1).elim
    · exact (h hP.2.1).elim
    · exact (h hP.2.2).elim
  · rw [if_neg hP]
    refine ⟨fun _ => ?_, fun _ => rfl⟩
    rcases not_and_or.mp hP with h | h
    · exact Or.inl h
    · rcases not_and_or.mp h with h2 | h2
      · exact Or.inr (Or.inl h2)
      · exact Or.inr (Or.inr h2)

/-- `atan2` on the positive-x half plane is plain `arctan`. -/
theorem atan2_of_pos_x (y x : ℝ) (hx : 0 < x) : atan2 y x = Real.arctan (y / x) := by
  unfold atan2
  rw [if_pos hx]

/-- `atan2` straight up the y axis is a right angle. -/
theorem atan2_x_zero_y_pos (y : ℝ) (hy : 0 < y) : atan2 y 0 = Real.pi / 2 := by
  unfold atan2
  rw [if_neg (lt_irrefl 0), if_neg (lt_irrefl 0), if_pos hy]

/-- `atan2` straight down the y axis is minus a right angle. -/
theorem atan2_x_zero_y_neg (y : ℝ) (hy : y < 0) : atan2 y 0 = -(Real.pi / 2) := by
  unfold atan2
  rw [if_neg (lt_irrefl 0), if_neg (lt_irrefl 0), if_neg (by linarith), if_pos hy]

/-- `atan2` on the negative-x half plane with non-negative y adds `π`. -/
theorem atan2_of_neg_x_nonneg_y (y x : ℝ) (hx : x < 0) (hy : 0 ≤ y) :
    atan2 y x = Real.arctan (y / x) + Real.pi := by
  unfold atan2
  rw [if_neg (by linarith), if_pos hx, if_pos hy]

/-- Truncation toward zero is the identity on integers. -/
theorem truncToInt_intCast (n : ℤ) : truncToInt (n : ℝ) = n := by
  unfold truncToInt
  split
  · exact Int.floor_intCast n
  · exact Int.ceil_intCast n

/-- The bearing of a zero-offset state with sample `(x, y, 0)`. -/
theorem bearingOf_headingState (x y : Int) :
    bearingOf (headingState x y) = atan2 (y : ℝ) (x : ℝ) * 180 / Real.pi := by
  unfold bearingOf headingState baseState zeroSample
  push_cast
  norm_num

/-- In the calibrated, non-calibrating case `heading()` is the truncated
normalized bearing subtracted from 360, and fires nothing. -/
theorem heading_calibrated_eq (s : CompassState) (h1 : s.calibratedFlag = true)
    (h2 : s.calibratingFlag = false) :
    heading s = (HeadingResult.degrees (truncToInt (360 - normBearing s)), []) := by
  unfold heading normBearing
  rw [if_neg (by simp [h2]), if_neg (by simp [h1])]

/-- For `0 < u`, `arctan u` lies strictly between `0` and `u`. -/
theorem arctan_pos_lt_self (u : ℝ) (hu : 0 < u) :
    0 < Real.arctan u ∧ Real.arctan u < u := by
  have h1 : 0 < Real.arctan u := by
    have h := Real.arctan_strictMono hu
    rwa [Real.arctan_zero] at h
  have h2 : Real.arctan u < u := by
    have h := Real.lt_tan h1 (Real.arctan_lt_pi_div_two u)
    rwa [Real.tan_arctan] at h
  exact ⟨h1, h2⟩

/-- The spec's worked heading value for sample `(0, 10)`. -/
theorem normBearing_e270 : normBearing (headingState 0 10) = 90 := by
  unfold normBearing
  rw [bearingOf_headingState]
  push_cast
  rw [atan2_x_zero_y_pos 10 (by norm_num)]
  have h90 : Real.pi / 2 * 180 / Real.pi = 90 := by
    field_simp
    ring
  rw [h90, if_neg (by norm_num)]

/-- The spec's worked heading value for sample `(-10, 0)`. -/
theorem normBearing_e180 : normBearing (headingState (-10) 0) = 180 := by
  unfold normBearing
  rw [bearingOf_headingState]
  push_cast
  rw [atan2_of_neg_x_nonneg_y 0 (-10) (by norm_num) le_rfl]
  rw [zero_div, Real.arctan_zero, zero_add]
  have h180 : Real.pi * 180 / Real.pi = 180 := by
    field_simp
  rw [h180, if_neg (by norm_num)]

/-- The spec's worked heading value for sample `(0, -10)`. -/
theorem normBearing_e90 : normBearing (headingState 0 (-10)) = 270 := by
  unfold normBearing
  rw [bearingOf_headingState]
  push_cast
  rw [atan2_x_zero_y_neg (-10) (by norm_num)]
  have hm90 : -(Real.pi / 2) * 180 / Real.pi = -90 := by
    field_simp
    ring
  rw [hm90, if_pos (by norm_num)]
  norm_num

/-- C4. When the compass is calibrated and not calibrating, `heading()`
returns the integer truncation of `360 - bearing`, where the bearing is
`atan2(sample.y - offset.y, sample.x - offset.x)` in degrees with
negative values normalized by adding 360; with zero offset, sample
`(0, 10)` yields 270, `(-10, 0)` yields 180, and `(0, -10)` yields 90. -/
theorem c4_heading_formula (s : CompassState) (h1 : s.calibratedFlag = true)
    (h2 : s.calibratingFlag = false) :
    (heading s).1 = HeadingResult.degrees (truncToInt (360 - normBearing s)) ∧
    (heading (headingState 0 10)).1 = HeadingResult.degrees 270 ∧
    (heading (headingState (-10) 0)).1 = HeadingResult.degrees 180 ∧
    (heading (headingState 0 (-10))).1 = HeadingResult.degrees 90 := by
  refine ⟨by rw [heading_calibrated_eq s h1 h2], ?_, ?_, ?_⟩
  · rw [heading_calibrated_eq _ rfl rfl, normBearing_e270]
    norm_num
    rw [show (270:ℝ) = ((270:ℤ):ℝ) by norm_num, truncToInt_intCast]
  · rw [heading_calibrated_eq _ rfl rfl, normBearing_e180]
    norm_num
    rw [show (180:ℝ) = ((180:ℤ):ℝ) by norm_num, truncToInt_intCast]
  · rw [heading_calibrated_eq _ rfl rfl, normBearing_e90]
    norm_num
    rw [show (90:ℝ) = ((90:ℤ):ℝ) by norm_num, truncToInt_intCast]

/-- C4 witness: the concrete sample `(0, 10)` discharges the hypotheses. -/
theorem c4_witness :
    (heading (headingState 0 10)).1 =
      HeadingResult.degrees (truncToInt (360 - normBearing (headingState 0 10))) :=
  (c4_heading_formula (headingState 0 10) rfl rfl).1

/-- C9. The calibrated heading value is not confined to 0..359: whenever
the bias-corrected sample has `y` component zero and `x` component
positive, the bearing is exactly 0 and `heading()` returns 360; and for
the concrete sample `(1000, -1)` with zero offset the bearing lies just
below 360 and `heading()` returns 0, so both endpoints occur. -/
theorem c9_heading_range :
    (∀ s : CompassState, s.calibratedFlag = true → s.calibratingFlag = false →
      s.sample.y - s.average.y = 0 → 0 < s.sample.x - s.average.x →
      (heading s).1 = HeadingResult.degrees 360) ∧
    (heading (headingState 1000 (-1))).1 = HeadingResult.degrees 0 := by
  constructor
  · intro s h1 h2 hy hx
    rw [heading_calibrated_eq s h1 h2]
    have hb : bearingOf s = 0 := by
      unfold bearingOf
      rw [hy]
      rw [atan2_of_pos_x _ _ (by exact_mod_cast hx)]
      simp [Real.arctan_zero]
    have hn : normBearing s = 0 := by
      unfold normBearing
      rw [hb, if_neg (lt_irrefl 0)]
    rw [hn]
    norm_num
    rw [show (360:ℝ) = ((360:ℤ):ℝ) by norm_num, truncToInt_intCast]
  · have ha := arctan_pos_lt_self (1 / 1000) (by norm_num)
    have hpi := Real.pi_gt_three
    have hpos := Real.pi_pos
    set a := Real.arctan (1 / 1000) with hadef
    have hb : bearingOf (headingState 1000 (-1)) = -(a * 180 / Real.pi) := by
      rw [bearingOf_headingState]
      push_cast
      rw [atan2_of_pos_x _ _ (by norm_num)]
      rw [show (-1 : ℝ) / 1000 = -(1 / 1000) by norm_num, Real.arctan_neg, ← hadef]
      ring
    have hd0 : 0 < a * 180 / Real.pi :=
      div_pos (mul_pos ha.1 (by norm_num)) hpos
    have hd1 : a * 180 / Real.pi < 1 := by
      rw [div_lt_one hpos]
      have : a * 180 < (1 / 1000) * 180 := by nlinarith [ha.2]
      nlinarith
    rw [heading_calibrated_eq _ rfl rfl]
    have hn : normBearing (headingState 1000 (-1)) = -(a * 180 / Real.pi) + 360 := by
      unfold normBearing
      rw [hb, if_pos (by linarith)]
    rw [hn]
    have htr : truncToInt (360 - (-(a * 180 / Real.pi) + 360)) = 0 := by
      have heq : 360 - (-(a * 180 / Real.pi) + 360) = a * 180 / Real.pi := by ring
      rw [heq]
      unfold truncToInt
      rw [if_pos (le_of_lt hd0)]
      rw [Int.floor_eq_zero_iff.mpr ⟨le_of_lt hd0, hd1⟩]
    rw [htr]

/-- C9 witness: the corrected sample `(1, 0)` gives heading 360. -/
theorem c9_witness :
    (heading (headingState 1 0)).1 = HeadingResult.degrees 360 :=
  c9_heading_range.1 (headingState 1 0) rfl rfl (by decide) (by decide)
